import Mathlib

/-!
Shallow embedding of the activation-aggregation core of the flex-layout repository,
`src/src/lib/core/media-observer/media-observer.ts` (class `MediaObserver` and the
free functions `toMediaQuery` and `sortChangesByPriority`). The collaborators the
aggregator consumes (Breakpoint Registry, Media Matcher, Print Hook, the `MediaChange`
event class and the `mergeAlias` helper) are declared in files of the repository that
are not part of the staged sources; those are modelled from the specification's
contracts (spec sections 3, 4.1, 4.3, 4.4) and marked as such in their doc comments.
-/

/-- Modelled from the spec: a `Breakpoint` record (spec section 3): alias, media query
string, priority (number, default 0) and overlap flag. The class source
(`breakpoints/break-point.ts`) is not under `src/`. -/
structure BreakPoint where
  «alias» : String
  mediaQuery : String
  priority : Int
  overlapping : Bool
deriving DecidableEq

/-- Modelled from the spec: the `MediaChange` event record (spec section 3):
`{ matches, mediaQuery, mqAlias (may be empty), suffix (may be empty), priority
(default 0) }`. The class source (`media-change.ts`) is not under `src/`.
`priority` is an `Option Int`: `none` stands for a JavaScript `undefined` priority
field, which the source's sort comparator explicitly guards against with `|| 0`. -/
structure MediaChange where
  «matches» : Bool
  mediaQuery : String
  mqAlias : String
  suffix : String
  priority : Option Int
deriving DecidableEq

/-- Modelled from the spec: `new MediaChange(matches, mediaQuery)` — the remaining
constructor fields take their documented defaults `mqAlias = ''`, `suffix = ''`,
`priority = 0` (spec section 3). -/
def MediaChange.create (m : Bool) (mediaQuery : String) : MediaChange :=
  { «matches» := m, mediaQuery := mediaQuery, mqAlias := "", suffix := "",
    priority := some 0 }

/-- Modelled from the spec: the Breakpoint Registry (spec section 4.1): an ordered
sequence of breakpoints with pure lookups by alias and by raw query string. The
registry source (`breakpoints/break-point-registry.ts`) is not under `src/`. -/
structure BreakPointRegistry where
  items : List BreakPoint

/-- Registry lookup by alias (spec section 4.1, `findByAlias`). -/
def BreakPointRegistry.findByAlias (r : BreakPointRegistry) (a : String) :
    Option BreakPoint :=
  r.items.find? (fun bp => bp.«alias» == a)

/-- Registry lookup by raw media-query string (spec section 4.1, `findByQuery`). -/
def BreakPointRegistry.findByQuery (r : BreakPointRegistry) (q : String) :
    Option BreakPoint :=
  r.items.find? (fun bp => bp.mediaQuery == q)

/-- Modelled from the spec: the Media Matcher contract consumed by the aggregator
(spec section 4.4): the ordered set of currently matching query strings
(`activations`) and the synchronous point read `isActive`. The matcher source
(`match-media/match-media.ts`) is not under `src/`. -/
structure MatchMedia where
  activations : List String
  isActive : String → Bool

/-- Modelled from the spec: the Print Hook contract consumed by the aggregator
(spec section 4.3): `withPrintQuery`, `isPrintEvent` and `updateEvent`. The hook
source (`media-marshaller/print-hook.ts`) is not under `src/`. -/
structure PrintHook where
  withPrintQuery : List String → List String
  isPrintEvent : MediaChange → Bool
  updateEvent : MediaChange → MediaChange

/-- Modelled from the spec: the `mergeAlias` helper (`add-alias.ts`, not under
`src/`). Spec section 4.2 step 5: resolve and merge alias/priority metadata from the
Registry breakpoint when one exists, otherwise leave the alias fields as they are
(empty for raw events, spec section 3). -/
def mergeAlias (dest : MediaChange) (source : Option BreakPoint) : MediaChange :=
  match source with
  | some bp => { dest with mqAlias := bp.«alias», priority := some bp.priority }
  | none => dest

/-- The priority a (possibly null) entry contributes to the sort comparator:
`a ? a.priority || 0 : 0` from `sortChangesByPriority` in the source. `none` at the
outer option stands for a JavaScript `null`/`undefined` entry, `none` at the inner
option for an `undefined` `priority` field; both fall back to `0`, and `p || 0 = p`
for every number `p`. -/
def resolvedPriority : Option MediaChange → Int
  | none => 0
  | some c => c.priority.getD 0

/-- `sortChangesByPriority` from the source (lines 182-186): the comparator handed to
the activation sort; it returns `priorityB - priorityA`. -/
def sortChangesByPriority (a b : Option MediaChange) : Int :=
  let priorityA := resolvedPriority a
  let priorityB := resolvedPriority b
  priorityB - priorityA

/-- The ordering the comparator induces on actual (non-null) entries: `a` may stand
before `b` exactly when the comparator does not ask to swap them. `Array.prototype.sort`
is guaranteed stable by ECMAScript, so `.sort(sortChangesByPriority)` in the source is
embedded below as a stable sort for this relation. -/
def sortLe (a b : MediaChange) : Prop :=
  sortChangesByPriority (some a) (some b) ≤ 0

instance : DecidableRel sortLe :=
  fun a b => inferInstanceAs (Decidable (sortChangesByPriority (some a) (some b) ≤ 0))

instance : IsTotal MediaChange sortLe := by
  constructor
  intro a b
  simp only [sortLe, sortChangesByPriority]
  omega

instance : IsTrans MediaChange sortLe := by
  constructor
  intro a b c
  simp only [sortLe, sortChangesByPriority]
  omega

/-- The stable sort step of `findAllActivations`: `.sort(sortChangesByPriority)`,
embedded as insertion sort (a stable sort) for the comparator's ordering. -/
def sortByPriority (l : List MediaChange) : List MediaChange :=
  List.insertionSort sortLe l

/-- The local `replaceWithPrintAlias` of `findAllActivations` (source lines 158-160):
substitute the Print Hook's resolved event for a print-triggered change. -/
def replaceWithPrintAlias (hook : PrintHook) (change : MediaChange) : MediaChange :=
  if hook.isPrintEvent change then hook.updateEvent change else change

/-- The local `mergeMQAlias` of `findAllActivations` (source lines 154-157): look the
change's query up in the registry and merge the breakpoint's alias metadata. -/
def mergeMQAlias (breakpoints : BreakPointRegistry) (change : MediaChange) : MediaChange :=
  mergeAlias change (breakpoints.findByQuery change.mediaQuery)

/-- `findAllActivations` (source lines 153-168): one `MediaChange(true, query)` per
query in the matcher's current activation set, print-substituted, alias-merged, and
sorted by the priority comparator. -/
def findAllActivations (matchMedia : MatchMedia) (hook : PrintHook)
    (breakpoints : BreakPointRegistry) : List MediaChange :=
  sortByPriority
    (((matchMedia.activations.map (fun query => MediaChange.create true query)).map
        (replaceWithPrintAlias hook)).map
      (mergeMQAlias breakpoints))

/-- The per-query construction `findAllActivations` applies to one activation:
build `MediaChange(true, query)`, apply the print substitution, then merge the
registry alias metadata. -/
def activationStep (hook : PrintHook) (breakpoints : BreakPointRegistry)
    (query : String) : MediaChange :=
  mergeMQAlias breakpoints (replaceWithPrintAlias hook (MediaChange.create true query))

/-- The local `isValidQuery` of `buildObservable` (source line 126): a change with a
non-empty `mediaQuery`. -/
def isValidQuery (change : MediaChange) : Bool :=
  change.mediaQuery.length > 0

/-- The local `hasChanges` of `buildObservable` (source lines 125-128): true when at
least one change of the list has a non-empty `mediaQuery`. -/
def hasChanges (changes : List MediaChange) : Bool :=
  (changes.filter isValidQuery).length > 0

/-- The local `excludeOverlaps` of `buildObservable` (source lines 129-134): when
`filterOverlaps` is set, drop every change whose registry breakpoint is marked
overlapping; changes without a registry breakpoint pass through. -/
def excludeOverlaps (filterOverlaps : Bool) (breakpoints : BreakPointRegistry)
    (changes : List MediaChange) : List MediaChange :=
  if !filterOverlaps then changes
  else
    changes.filter (fun change =>
      match breakpoints.findByQuery change.mediaQuery with
      | none => true
      | some bp => !bp.overlapping)

/-- A raw signal of the observed stream: a `MediaChange` tagged with its arrival
time (in milliseconds) on the single-threaded event loop. -/
structure RawSignal where
  time : Nat
  change : MediaChange
deriving DecidableEq

/-- `debounceTime(d)` over a time-ordered signal list: a signal's timer fires `d`
after its arrival unless a later signal of the stream arrives strictly inside that
window (which restarts the timer). The result is the list of fire times. -/
def firesAt (d : Nat) : List RawSignal → List Nat
  | [] => []
  | s :: rest =>
    if rest.all (fun t => decide (s.time + d ≤ t.time)) then
      (s.time + d) :: firesAt d rest
    else
      firesAt d rest

/-- The candidate lists of `buildObservable`: for each debounce fire time `t`, the
value `switchMap(_ => of(this.findAllActivations()))` produces from the matcher state
`stateAt t` current at that moment, passed through `map(excludeOverlaps)`. -/
def candidateLists (filterOverlaps : Bool) (breakpoints : BreakPointRegistry)
    (hook : PrintHook) (stateAt : Nat → MatchMedia) (input : List RawSignal) :
    List (List MediaChange) :=
  (firesAt 10 (input.filter (fun s => s.change.«matches»))).map
    (fun t => excludeOverlaps filterOverlaps breakpoints
      (findAllActivations (stateAt t) hook breakpoints))

/-- `buildObservable` (source lines 124-147): the published stream. The raw signals
delivered by `matchMedia.observe(hook.withPrintQuery(mqList))` are the time-stamped
`input` list (the matcher is an external collaborator, spec section 4.4); `stateAt t`
is the matcher's state when the debounce timer fires at time `t`. Pipeline stages, in
source order: `filter(change.matches)`, `debounceTime(10)`,
`switchMap(_ => of(findAllActivations()))`, `map(excludeOverlaps)`,
`filter(hasChanges)`. -/
def buildObservable (filterOverlaps : Bool) (breakpoints : BreakPointRegistry)
    (hook : PrintHook) (stateAt : Nat → MatchMedia) (input : List RawSignal) :
    List (List MediaChange) :=
  (candidateLists filterOverlaps breakpoints hook stateAt input).filter hasChanges

/-- `toMediaQuery` (source lines 176-179): resolve an alias or query through the
registry — alias lookup first, then query lookup (`||`), falling back to the argument
itself as a literal query. -/
def toMediaQuery (query : String) (locator : BreakPointRegistry) : String :=
  let bp := (locator.findByAlias query).orElse (fun _ => locator.findByQuery query)
  match bp with
  | some b => b.mediaQuery
  | none => query

/-- `MediaObserver.isActive` (source lines 86-89): resolve the argument through the
registry, then read the matcher's current state for the resolved query. -/
def MediaObserver.isActive (breakpoints : BreakPointRegistry) (matchMedia : MatchMedia)
    (aliasOrQuery : String) : Bool :=
  matchMedia.isActive (toMediaQuery aliasOrQuery breakpoints)

theorem sortByPriority_perm (l : List MediaChange) : (sortByPriority l).Perm l :=
  List.perm_insertionSort sortLe l

theorem sortByPriority_mem {c : MediaChange} {l : List MediaChange} :
    c ∈ sortByPriority l ↔ c ∈ l :=
  (sortByPriority_perm l).mem_iff

theorem sortByPriority_sorted (l : List MediaChange) :
    (sortByPriority l).Pairwise
      (fun a b => resolvedPriority (some b) ≤ resolvedPriority (some a)) := by
  have h := List.sorted_insertionSort sortLe l
  refine List.Pairwise.imp ?_ h
  intro a b hab
  simp only [sortLe, sortChangesByPriority] at hab
  omega

theorem filter_orderedInsert_of_key (p : Int) (a : MediaChange) (l : List MediaChange)
    (h : resolvedPriority (some a) = p) :
    (List.orderedInsert sortLe a l).filter
        (fun c => decide (resolvedPriority (some c) = p)) =
      a :: l.filter (fun c => decide (resolvedPriority (some c) = p)) := by
  induction l with
  | nil => simp [h]
  | cons b l ih =>
    by_cases hb : sortLe a b
    · simp [List.orderedInsert, hb, h]
    · have hbp : ¬ resolvedPriority (some b) = p := by
        simp only [sortLe, sortChangesByPriority] at hb
        omega
      simp [List.orderedInsert, hb, hbp, ih]

theorem filter_orderedInsert_of_ne (p : Int) (a : MediaChange) (l : List MediaChange)
    (h : ¬ resolvedPriority (some a) = p) :
    (List.orderedInsert sortLe a l).filter
        (fun c => decide (resolvedPriority (some c) = p)) =
      l.filter (fun c => decide (resolvedPriority (some c) = p)) := by
  induction l with
  | nil => simp [h]
  | cons b l ih =>
    by_cases hb : sortLe a b
    · simp [List.orderedInsert, hb, h]
    · simp [List.orderedInsert, hb, List.filter_cons, ih]

theorem sortByPriority_stable (p : Int) (l : List MediaChange) :
    (sortByPriority l).filter (fun c => decide (resolvedPriority (some c) = p)) =
      l.filter (fun c => decide (resolvedPriority (some c) = p)) := by
  induction l with
  | nil => rfl
  | cons a l ih =>
    show (List.orderedInsert sortLe a (sortByPriority l)).filter _ = _
    by_cases ha : resolvedPriority (some a) = p
    · rw [filter_orderedInsert_of_key p a _ ha, ih]
      simp [ha]
    · rw [filter_orderedInsert_of_ne p a _ ha, ih]
      simp [ha]

theorem findAllActivations_eq (M : MatchMedia) (H : PrintHook)
    (B : BreakPointRegistry) :
    findAllActivations M H B = sortByPriority (M.activations.map (activationStep H B)) := by
  simp only [findAllActivations, List.map_map]
  rfl

theorem excludeOverlaps_sublist (fo : Bool) (B : BreakPointRegistry)
    (l : List MediaChange) : (excludeOverlaps fo B l).Sublist l := by
  unfold excludeOverlaps
  split
  · exact List.Sublist.refl l
  · exact List.filter_sublist l

/-- Claim C1: every published list is recomputed in full from the matcher's activation
set current when the debounce window fires — it is exactly the per-query construction
`MediaChange(true, query)`, print-substituted and then alias-merged, over
`matchMedia.activations` (one entry per query, reordered only by the priority sort and
the configured overlap filter); nothing of a published list depends on the individual
triggering signals or on previous emissions. -/
theorem mediaObserver_full_recompute (filterOverlaps : Bool) (B : BreakPointRegistry)
    (H : PrintHook) (stateAt : Nat → MatchMedia) (input : List RawSignal) :
    (∀ E ∈ buildObservable filterOverlaps B H stateAt input,
      ∃ t ∈ firesAt 10 (input.filter (fun s => s.change.«matches»)),
        E = excludeOverlaps filterOverlaps B (findAllActivations (stateAt t) H B)) ∧
    (∀ M : MatchMedia,
      (findAllActivations M H B).Perm (M.activations.map (activationStep H B))) := by
  constructor
  · intro E hE
    have hE' : E ∈ candidateLists filterOverlaps B H stateAt input :=
      List.mem_of_mem_filter hE
    rcases List.mem_map.mp hE' with ⟨t, ht, heq⟩
    exact ⟨t, ht, heq.symm⟩
  · intro M
    rw [findAllActivations_eq]
    exact sortByPriority_perm _

/-- Claim C2: every published list is sorted by descending priority (a missing
priority counting as 0), and the sort is stable: for every priority value, the
entries of that priority appear in the sorted list in exactly the order they had
before the sort. -/
theorem mediaObserver_sorted_stable (filterOverlaps : Bool) (B : BreakPointRegistry)
    (H : PrintHook) (stateAt : Nat → MatchMedia) (input : List RawSignal) :
    (∀ E ∈ buildObservable filterOverlaps B H stateAt input,
      E.Pairwise (fun a b => resolvedPriority (some b) ≤ resolvedPriority (some a))) ∧
    (∀ (l : List MediaChange) (p : Int),
      (sortByPriority l).filter (fun c => decide (resolvedPriority (some c) = p)) =
        l.filter (fun c => decide (resolvedPriority (some c) = p))) := by
  constructor
  · intro E hE
    have hE' : E ∈ candidateLists filterOverlaps B H stateAt input :=
      List.mem_of_mem_filter hE
    rcases List.mem_map.mp hE' with ⟨t, ht, heq⟩
    have hs : (findAllActivations (stateAt t) H B).Pairwise
        (fun a b => resolvedPriority (some b) ≤ resolvedPriority (some a)) := by
      rw [findAllActivations_eq]
      exact sortByPriority_sorted _
    rw [← heq]
    exact List.Pairwise.sublist (excludeOverlaps_sublist _ _ _) hs
  · intro l p
    exact sortByPriority_stable p l

/-- Claim C3: with `filterOverlaps = true`, `excludeOverlaps` removes exactly the
changes whose query resolves through the registry to a breakpoint marked overlapping;
changes whose query has no registry breakpoint always pass; with
`filterOverlaps = false` (the default) the list passes through unchanged. -/
theorem mediaObserver_overlap_filtering (B : BreakPointRegistry)
    (l : List MediaChange) :
    excludeOverlaps false B l = l ∧
    excludeOverlaps true B l =
      l.filter (fun change =>
        match B.findByQuery change.mediaQuery with
        | none => true
        | some bp => !bp.overlapping) ∧
    (∀ c : MediaChange, c ∈ excludeOverlaps true B l ↔
      c ∈ l ∧ ∀ bp, B.findByQuery c.mediaQuery = some bp → bp.overlapping = false) := by
  refine ⟨rfl, rfl, ?_⟩
  intro c
  show c ∈ l.filter _ ↔ _
  rw [List.mem_filter]
  cases h : B.findByQuery c.mediaQuery <;> simp [h]

theorem firesAt_burst (d : Nat) (sigs : List RawSignal) (hne : sigs ≠ [])
    (hburst : sigs.Chain' (fun a b => a.time ≤ b.time ∧ b.time < a.time + d)) :
    firesAt d sigs = [(sigs.getLast hne).time + d] := by
  induction sigs with
  | nil => exact absurd rfl hne
  | cons s rest ih =>
    cases rest with
    | nil => simp [firesAt]
    | cons s' rest' =>
      have hgap : s'.time < s.time + d := (List.chain'_cons.mp hburst).1.2
      have hall : ¬ (s' :: rest').all (fun t => decide (s.time + d ≤ t.time)) = true := by
        simp only [List.all_cons, Bool.and_eq_true, decide_eq_true_eq]
        omega
      have htail := ih (List.cons_ne_nil s' rest') (List.chain'_cons.mp hburst).2
      rw [firesAt, if_neg hall, htail, List.getLast_cons (List.cons_ne_nil s' rest')]

/-- Claim C4: a burst of activation signals whose gaps all stay inside the 10ms
debounce window produces exactly one aggregated emission, and that emission is
computed from the matcher's state at the end of the window (10ms after the last
signal of the burst), containing an entry for every query the burst touched;
no individual signal of the burst produces an emission of its own. -/
theorem mediaObserver_debounce_coalescing (filterOverlaps : Bool)
    (B : BreakPointRegistry) (H : PrintHook) (stateAt : Nat → MatchMedia)
    (sigs : List RawSignal) (hne : sigs ≠ [])
    (hmatch : ∀ s ∈ sigs, s.change.«matches» = true)
    (hburst : sigs.Chain' (fun a b => a.time ≤ b.time ∧ b.time < a.time + 10))
    (hactive : ∀ s ∈ sigs, s.change.mediaQuery ∈
      (stateAt ((sigs.getLast hne).time + 10)).activations)
    (hgate : hasChanges (excludeOverlaps filterOverlaps B
      (findAllActivations (stateAt ((sigs.getLast hne).time + 10)) H B)) = true) :
    buildObservable filterOverlaps B H stateAt sigs =
      [excludeOverlaps filterOverlaps B
        (findAllActivations (stateAt ((sigs.getLast hne).time + 10)) H B)] ∧
    ∀ s ∈ sigs, activationStep H B s.change.mediaQuery ∈
      findAllActivations (stateAt ((sigs.getLast hne).time + 10)) H B := by
  have hfilter : sigs.filter (fun s => s.change.«matches») = sigs :=
    List.filter_eq_self.mpr (fun s hs => by rw [hmatch s hs])
  constructor
  · rw [buildObservable, candidateLists, hfilter, firesAt_burst 10 sigs hne hburst]
    rw [List.map_cons, List.map_nil, List.filter_cons, if_pos hgate]
    rfl
  · intro s hs
    rw [findAllActivations_eq, sortByPriority_mem]
    exact List.mem_map_of_mem (activationStep H B) (hactive s hs)

/-- Claim C5: deactivation signals never reach the debounce/recompute stages: the
published stream only depends on the activation signals of the input, and an input
holding only deactivations (in particular, the lone deactivation of the only active
query) produces no emission at all. -/
theorem mediaObserver_no_deactivation_emission (filterOverlaps : Bool)
    (B : BreakPointRegistry) (H : PrintHook) (stateAt : Nat → MatchMedia)
    (input : List RawSignal) :
    buildObservable filterOverlaps B H stateAt input =
      buildObservable filterOverlaps B H stateAt
        (input.filter (fun s => s.change.«matches»)) ∧
    ((∀ s ∈ input, s.change.«matches» = false) →
      buildObservable filterOverlaps B H stateAt input = []) := by
  constructor
  · rw [buildObservable, buildObservable, candidateLists, candidateLists,
      List.filter_filter]
    simp only [Bool.and_self]
  · intro hdeact
    have hnil : input.filter (fun s => s.change.«matches») = [] := by
      rw [List.filter_eq_nil_iff]
      intro s hs
      simp [hdeact s hs]
    rw [buildObservable, candidateLists, hnil]
    rfl

/-- Claim C6: an aggregated candidate list is published exactly when `hasChanges`
holds of it, and `hasChanges` holds exactly when some entry of the list carries a
non-empty `mediaQuery`; in particular the empty list is never published. -/
theorem mediaObserver_empty_suppression (filterOverlaps : Bool)
    (B : BreakPointRegistry) (H : PrintHook) (stateAt : Nat → MatchMedia)
    (input : List RawSignal) :
    (∀ l : List MediaChange,
      hasChanges l = true ↔ ∃ c ∈ l, 0 < c.mediaQuery.length) ∧
    buildObservable filterOverlaps B H stateAt input =
      (candidateLists filterOverlaps B H stateAt input).filter hasChanges ∧
    hasChanges [] = false := by
  refine ⟨?_, rfl, rfl⟩
  intro l
  rw [hasChanges]
  simp only [decide_eq_true_eq, List.length_pos, ← List.isEmpty_iff, Bool.not_eq_true,
    ← Bool.not_eq_true, ← ne_eq]
  rw [ne_eq, List.filter_eq_nil_iff]
  push_neg
  constructor
  · rintro ⟨c, hc, hv⟩
    exact ⟨c, hc, by simpa [isValidQuery] using hv⟩
  · rintro ⟨c, hc, hv⟩
    exact ⟨c, hc, by simpa [isValidQuery] using hv⟩

/-- Claim C7: in every published list, an entry whose `mediaQuery` has a matching
registry breakpoint carries that breakpoint's alias and priority; an entry whose
query is not in the registry is the raw constructed event (possibly print-
substituted), and when it is not a print event it carries `mqAlias = ''` and the
default priority 0. -/
theorem mediaObserver_alias_resolution (filterOverlaps : Bool)
    (B : BreakPointRegistry) (H : PrintHook) (stateAt : Nat → MatchMedia)
    (input : List RawSignal) :
    ∀ E ∈ buildObservable filterOverlaps B H stateAt input, ∀ e ∈ E,
      (∀ bp, B.findByQuery e.mediaQuery = some bp →
        e.mqAlias = bp.«alias» ∧ e.priority = some bp.priority) ∧
      (B.findByQuery e.mediaQuery = none →
        ∃ q, e = replaceWithPrintAlias H (MediaChange.create true q) ∧
          (H.isPrintEvent (MediaChange.create true q) = false →
            e.mqAlias = "" ∧ e.priority = some 0 ∧ e.mediaQuery = q)) := by
  intro E hE e heE
  have hE' : E ∈ candidateLists filterOverlaps B H stateAt input :=
    List.mem_of_mem_filter hE
  rcases List.mem_map.mp hE' with ⟨t, ht, heq⟩
  rw [← heq] at heE
  have heF : e ∈ findAllActivations (stateAt t) H B :=
    (excludeOverlaps_sublist filterOverlaps B _).subset heE
  rw [findAllActivations_eq, sortByPriority_mem] at heF
  rcases List.mem_map.mp heF with ⟨q, hq, hstep⟩
  subst hstep
  rcases hfq : B.findByQuery (replaceWithPrintAlias H (MediaChange.create true q)).mediaQuery
    with _ | bp0
  · have he : activationStep H B q = replaceWithPrintAlias H (MediaChange.create true q) := by
      simp [activationStep, mergeMQAlias, hfq, mergeAlias]
    rw [he]
    constructor
    · intro bp hbp
      rw [hfq] at hbp
      exact absurd hbp (by simp)
    · intro _
      refine ⟨q, rfl, ?_⟩
      intro hpe
      rw [replaceWithPrintAlias, hpe]
      exact ⟨rfl, rfl, rfl⟩
  · have he : activationStep H B q =
        { replaceWithPrintAlias H (MediaChange.create true q) with
          mqAlias := bp0.«alias», priority := some bp0.priority } := by
      simp [activationStep, mergeMQAlias, hfq, mergeAlias]
    rw [he]
    constructor
    · intro bp hbp
      simp only at hbp
      rw [hfq] at hbp
      rcases Option.some.inj hbp with rfl
      exact ⟨rfl, rfl⟩
    · intro hnone
      simp only at hnone
      rw [hfq] at hnone
      exact absurd hnone (by simp)

/-- Claim C8: `isActive` resolves its argument through the registry — the alias
lookup first, then the query lookup, then the argument itself as a literal query —
and returns the matcher's current synchronous state for the resolved query; it is a
direct read of the matcher, with no reference to the published stream. -/
theorem mediaObserver_isActive_resolution (B : BreakPointRegistry) (M : MatchMedia)
    (s : String) :
    MediaObserver.isActive B M s = M.isActive (toMediaQuery s B) ∧
    (∀ bp, B.findByAlias s = some bp → toMediaQuery s B = bp.mediaQuery) ∧
    (B.findByAlias s = none →
      ∀ bp, B.findByQuery s = some bp → toMediaQuery s B = bp.mediaQuery) ∧
    (B.findByAlias s = none → B.findByQuery s = none → toMediaQuery s B = s) := by
  refine ⟨rfl, ?_, ?_, ?_⟩
  · intro bp hbp
    simp [toMediaQuery, hbp, Option.orElse]
  · intro hnone bp hbp
    simp [toMediaQuery, hnone, hbp, Option.orElse]
  · intro h1 h2
    simp [toMediaQuery, h1, h2, Option.orElse]

/-- Claim C9: `hasChanges` only gates emission, it never filters entries — a
candidate list that passes the gate is published as that very list (so entries with
an empty `mediaQuery` are published along with it), and everything published is a
complete candidate list that passed the gate. -/
theorem mediaObserver_gate_only (filterOverlaps : Bool) (B : BreakPointRegistry)
    (H : PrintHook) (stateAt : Nat → MatchMedia) (input : List RawSignal) :
    (∀ l ∈ candidateLists filterOverlaps B H stateAt input,
      hasChanges l = true → l ∈ buildObservable filterOverlaps B H stateAt input) ∧
    (∀ l ∈ buildObservable filterOverlaps B H stateAt input,
      l ∈ candidateLists filterOverlaps B H stateAt input ∧ hasChanges l = true) := by
  constructor
  · intro l hl hgate
    exact List.mem_filter.mpr ⟨hl, hgate⟩
  · intro l hl
    exact ⟨List.mem_of_mem_filter hl, List.of_mem_filter hl⟩

/-- Claim C10: the sort comparator is total — for every pair of possibly-null
entries it returns `priorityB - priorityA`, a `null` entry and an absent (or zero)
priority both resolving to 0. -/
theorem sortChangesByPriority_total (a b : Option MediaChange) (m : MediaChange)
    (p q : Int) :
    sortChangesByPriority a b = resolvedPriority b - resolvedPriority a ∧
    resolvedPriority none = 0 ∧
    resolvedPriority (some { m with priority := none }) = 0 ∧
    resolvedPriority (some { m with priority := some p }) = p ∧
    sortChangesByPriority (some { m with priority := some p })
      (some { m with priority := some q }) = q - p ∧
    sortChangesByPriority none (some { m with priority := some q }) = q ∧
    sortChangesByPriority (some { m with priority := none }) b =
      sortChangesByPriority none b := by
  refine ⟨rfl, rfl, rfl, rfl, rfl, ?_, rfl⟩
  simp [sortChangesByPriority, resolvedPriority]

/-- Demonstration breakpoint "a" (priority 1, exclusive) for the concrete checks. -/
def demoBpA : BreakPoint :=
  { «alias» := "a", mediaQuery := "(mq a)", priority := 1, overlapping := false }

/-- Demonstration breakpoint "b" (priority 5, exclusive). -/
def demoBpB : BreakPoint :=
  { «alias» := "b", mediaQuery := "(mq b)", priority := 5, overlapping := false }

/-- Demonstration breakpoint "c" (priority 3, overlapping). -/
def demoBpC : BreakPoint :=
  { «alias» := "c", mediaQuery := "(mq c)", priority := 3, overlapping := true }

/-- A small demonstration registry. -/
def demoRegistry : BreakPointRegistry :=
  { items := [demoBpA, demoBpB, demoBpC] }

/-- A print hook that never intervenes (no print context in the demonstrations). -/
def noopHook : PrintHook :=
  { withPrintQuery := fun qs => qs, isPrintEvent := fun _ => false,
    updateEvent := fun c => c }

/-- A matcher state in which all three demonstration queries are active. -/
def demoMatcher : MatchMedia :=
  { activations := ["(mq a)", "(mq b)", "(mq c)"], isActive := fun q => q == "(mq b)" }

/-- The matcher state over time for the demonstration burst: constant. -/
def demoStateAt : Nat → MatchMedia := fun _ => demoMatcher

/-- Three activation signals inside one 10ms debounce window. -/
def demoBurst : List RawSignal :=
  [ { time := 0, change := MediaChange.create true "(mq a)" },
    { time := 4, change := MediaChange.create true "(mq b)" },
    { time := 8, change := MediaChange.create true "(mq c)" } ]

/-- The one list the demonstration burst publishes: priorities [1, 5, 3] emitted
in the order [5, 3, 1]. -/
def demoEmitted : List MediaChange :=
  [ { «matches» := true, mediaQuery := "(mq b)", mqAlias := "b", suffix := "",
      priority := some 5 },
    { «matches» := true, mediaQuery := "(mq c)", mqAlias := "c", suffix := "",
      priority := some 3 },
    { «matches» := true, mediaQuery := "(mq a)", mqAlias := "a", suffix := "",
      priority := some 1 } ]

/-- The registered entry of `demoEmitted` examined by the alias-resolution check. -/
def demoEntryB : MediaChange :=
  { «matches» := true, mediaQuery := "(mq b)", mqAlias := "b", suffix := "",
    priority := some 5 }

/-- A lone deactivation signal. -/
def demoDeactivation : List RawSignal :=
  [ { time := 0, change := MediaChange.create false "(mq b)" } ]

/-- A lone activation signal. -/
def demoSignal : List RawSignal :=
  [ { time := 0, change := MediaChange.create true "(mq b)" } ]

/-- A matcher whose activation set holds an ad-hoc empty query beside a real one. -/
def emptyQueryMatcher : MatchMedia :=
  { activations := ["", "(mq b)"], isActive := fun _ => false }

/-- Constant state for `emptyQueryMatcher`. -/
def emptyQueryStateAt : Nat → MatchMedia := fun _ => emptyQueryMatcher

/-- A matcher whose only activation carries an empty query. -/
def allEmptyMatcher : MatchMedia :=
  { activations := [""], isActive := fun _ => false }

/-- Constant state for `allEmptyMatcher`. -/
def allEmptyStateAt : Nat → MatchMedia := fun _ => allEmptyMatcher

/-- The list `emptyQueryMatcher` publishes: the empty-query entry is kept. -/
def demoMixedList : List MediaChange :=
  [ { «matches» := true, mediaQuery := "(mq b)", mqAlias := "b", suffix := "",
      priority := some 5 },
    { «matches» := true, mediaQuery := "", mqAlias := "", suffix := "",
      priority := some 0 } ]

/-- Witness for C1: the list the demonstration burst publishes is the full
recomputation from the matcher state at a debounce fire time. -/
theorem mediaObserver_full_recompute_witness :
    ∃ t ∈ firesAt 10 (demoBurst.filter (fun s => s.change.«matches»)),
      demoEmitted = excludeOverlaps false demoRegistry
        (findAllActivations (demoStateAt t) noopHook demoRegistry) :=
  (mediaObserver_full_recompute false demoRegistry noopHook demoStateAt demoBurst).1
    demoEmitted (by decide)

/-- Witness for C2: the published list with priorities [1, 5, 3] comes out ordered
[5, 3, 1], pairwise descending. -/
theorem mediaObserver_sorted_stable_witness :
    demoEmitted.Pairwise
      (fun a b => resolvedPriority (some b) ≤ resolvedPriority (some a)) :=
  (mediaObserver_sorted_stable false demoRegistry noopHook demoStateAt demoBurst).1
    demoEmitted (by decide)

/-- Witness for C3: with breakpoints B (exclusive) and C (overlapping) both active,
`filterOverlaps = false` keeps both and `filterOverlaps = true` keeps only B. -/
theorem mediaObserver_overlap_filtering_witness :
    excludeOverlaps false demoRegistry
        [MediaChange.create true "(mq c)", MediaChange.create true "(mq b)"] =
      [MediaChange.create true "(mq c)", MediaChange.create true "(mq b)"] ∧
    excludeOverlaps true demoRegistry
        [MediaChange.create true "(mq c)", MediaChange.create true "(mq b)"] =
      [MediaChange.create true "(mq b)"] :=
  ⟨(mediaObserver_overlap_filtering demoRegistry
      [MediaChange.create true "(mq c)", MediaChange.create true "(mq b)"]).1,
    by decide⟩

/-- Witness for C4: the burst at times 0, 4, 8 produces exactly one emission,
computed from the matcher state at time 18 (the end of the window), with an entry
for each signalled query. -/
theorem mediaObserver_debounce_coalescing_witness :
    buildObservable false demoRegistry noopHook demoStateAt demoBurst =
      [excludeOverlaps false demoRegistry
        (findAllActivations (demoStateAt 18) noopHook demoRegistry)] ∧
    ∀ s ∈ demoBurst, activationStep noopHook demoRegistry s.change.mediaQuery ∈
      findAllActivations (demoStateAt 18) noopHook demoRegistry :=
  mediaObserver_debounce_coalescing false demoRegistry noopHook demoStateAt demoBurst
    (by decide) (by decide)
    (List.chain'_cons.mpr ⟨by decide, List.chain'_cons.mpr
      ⟨by decide, List.chain'_singleton _⟩⟩)
    (by decide) (by decide)

/-- Witness for C5: a lone deactivation signal publishes nothing, although the
matcher still reports active queries. -/
theorem mediaObserver_no_deactivation_emission_witness :
    buildObservable false demoRegistry noopHook demoStateAt demoDeactivation = [] :=
  (mediaObserver_no_deactivation_emission false demoRegistry noopHook demoStateAt
    demoDeactivation).2 (by decide)

/-- Witness for C6: when the only activation carries an empty query the candidate
list fails `hasChanges` and nothing is published. -/
theorem mediaObserver_empty_suppression_witness :
    buildObservable false demoRegistry noopHook allEmptyStateAt demoSignal = [] ∧
    (hasChanges [MediaChange.create true ""] = true ↔
      ∃ c ∈ [MediaChange.create true ""], 0 < c.mediaQuery.length) :=
  ⟨by decide,
    (mediaObserver_empty_suppression false demoRegistry noopHook allEmptyStateAt
      demoSignal).1 [MediaChange.create true ""]⟩

/-- Witness for C7: the published entry for query "(mq b)" carries the registry
breakpoint's alias "b" and priority 5. -/
theorem mediaObserver_alias_resolution_witness :
    (∀ bp, demoRegistry.findByQuery demoEntryB.mediaQuery = some bp →
      demoEntryB.mqAlias = bp.«alias» ∧ demoEntryB.priority = some bp.priority) ∧
    (demoRegistry.findByQuery demoEntryB.mediaQuery = none →
      ∃ q, demoEntryB = replaceWithPrintAlias noopHook (MediaChange.create true q) ∧
        (noopHook.isPrintEvent (MediaChange.create true q) = false →
          demoEntryB.mqAlias = "" ∧ demoEntryB.priority = some 0 ∧
            demoEntryB.mediaQuery = q)) :=
  mediaObserver_alias_resolution false demoRegistry noopHook demoStateAt demoBurst
    demoEmitted (by decide) demoEntryB (by decide)

/-- Witness for C8: the alias "b" resolves to its breakpoint's query and `isActive`
reads the matcher's state for it. -/
theorem mediaObserver_isActive_resolution_witness :
    MediaObserver.isActive demoRegistry demoMatcher "b" = true ∧
    toMediaQuery "b" demoRegistry = "(mq b)" :=
  ⟨by decide,
    (mediaObserver_isActive_resolution demoRegistry demoMatcher "b").2.1 demoBpB
      (by decide)⟩

/-- Witness for C9: a candidate list holding an empty-query entry beside a real one
passes the gate and is published in full, the empty-query entry included. -/
theorem mediaObserver_gate_only_witness :
    demoMixedList ∈
      buildObservable false demoRegistry noopHook emptyQueryStateAt demoSignal :=
  (mediaObserver_gate_only false demoRegistry noopHook emptyQueryStateAt
    demoSignal).1 demoMixedList (by decide) (by decide)

/-- Witness for C10: a null first argument resolves to priority 0, so the
comparator returns the second entry's priority. -/
theorem sortChangesByPriority_total_witness :
    sortChangesByPriority none
      (some { MediaChange.create true "(mq b)" with priority := some 5 }) = 5 :=
  (sortChangesByPriority_total none none (MediaChange.create true "(mq b)") 1 5).2.2.2.2.2.1
